import Mathlib

set_option maxRecDepth 4000

/-!
Formal model of `src/functions/pyodbc_functions.py`: the bidirectional
schema type-mapping engine (forward inference from tabular data, reverse
extraction from catalog metadata) and the table provisioner.

Pure computations (type inference, DDL rendering) are embedded as Lean
functions over explicit data; the database gateway (pyodbc cursor and
connection) is embedded as an oracle describing the outcome of each
gateway call, together with an event trace recording the calls the code
makes (statements executed, commits, closes).
-/

instance {α β : Type} [DecidableEq α] [DecidableEq β] : DecidableEq (Except α β) :=
  fun a b =>
    match a, b with
    | .ok x, .ok y => if h : x = y then .isTrue (by rw [h]) else .isFalse (by simp [h])
    | .error x, .error y => if h : x = y then .isTrue (by rw [h]) else .isFalse (by simp [h])
    | .ok _, .error _ => .isFalse (by simp)
    | .error _, .ok _ => .isFalse (by simp)

/-- An arbitrary-precision decimal, as `decimal.Decimal.as_tuple()` exposes
it: a sign, the coefficient digits, and a decimal exponent. -/
structure Dec where
  sign : Bool
  digits : List (Fin 10)
  exponent : Int
  deriving DecidableEq

/-- The character for one coefficient digit. -/
def digitChar (x : Fin 10) : Char := Char.ofNat (48 + x.val)

/-- Python `"%+d" % x`: a sign character followed by the decimal digits. -/
def plusFmt (x : Int) : List Char :=
  if x < 0 then '-' :: (Nat.repr (-x).toNat).data else '+' :: (Nat.repr x.toNat).data

/-- Python `str(Decimal)` for finite values (CPython `_pydecimal.__str__`,
`eng=False`): plain notation when `exponent <= 0` and the count of digits
left of the point exceeds `-6`, scientific notation otherwise. -/
def Dec.str (d : Dec) : List Char :=
  let sgn : List Char := if d.sign then ['-'] else []
  let n : Int := (d.digits.length : Int)
  let leftdigits : Int := d.exponent + n
  let dotplace : Int := if d.exponent ≤ 0 ∧ -6 < leftdigits then leftdigits else 1
  let digs : List Char := d.digits.map digitChar
  let intpart : List Char :=
    if dotplace ≤ 0 then ['0']
    else if n ≤ dotplace then digs ++ List.replicate (dotplace - n).toNat '0'
    else digs.take dotplace.toNat
  let fracpart : List Char :=
    if dotplace ≤ 0 then '.' :: (List.replicate (-dotplace).toNat '0' ++ digs)
    else if n ≤ dotplace then []
    else '.' :: digs.drop dotplace.toNat
  let expo : List Char :=
    if leftdigits = dotplace then [] else 'E' :: plusFmt (leftdigits - dotplace)
  sgn ++ intpart ++ fracpart ++ expo

/-- Python `s.split('.')`: split on every `'.'`; always returns at least one
piece, and empty pieces are kept. -/
def pySplitDot : List Char → List (List Char)
  | [] => [[]]
  | c :: cs =>
    if c = '.' then [] :: pySplitDot cs
    else
      match pySplitDot cs with
      | [] => [[c]]
      | p :: ps => (c :: p) :: ps

/-- Python `s.lstrip('-')`: drop every leading `'-'`. -/
def lstripMinus : List Char → List Char
  | [] => []
  | c :: cs => if c = '-' then lstripMinus cs else c :: cs

/-- Python `set(s) == set('0')`: `s` is nonempty and every character is `'0'`. -/
def charSetIsZero (cs : List Char) : Bool :=
  !cs.isEmpty && cs.all (fun c => c == '0')

/-- Lines 162-173 of `generate_schema_from_df`: the `decimal.Decimal` sample
branch.  `scale` is `-exponent` when the exponent is negative, else `0`;
the precision comes from the printed form of the sample: when everything
left of the decimal point (sign stripped) is zeros, the count of characters
after the point, otherwise the count of characters with the sign and the
point removed.  Indexing `split('.')[1]` when the printed form has no point
raises `IndexError`, modelled as `Except.error`. -/
def decimalSqlType (d : Dec) : Except String String :=
  let s := d.str
  let scale : Nat := if d.exponent < 0 then (-d.exponent).toNat else 0
  let parts := pySplitDot s
  if charSetIsZero (lstripMinus (parts.headD [])) then
    match parts[1]? with
    | none => Except.error "IndexError: list index out of range"
    | some frac =>
        Except.ok ("DECIMAL(" ++ toString frac.length ++ "," ++ toString scale ++ ")")
  else
    Except.ok ("DECIMAL(" ++ toString ((lstripMinus s).filter (fun c => c != '.')).length
      ++ "," ++ toString scale ++ ")")

/-- A value stored in an object-dtype column: `None`/`NaN`, a byte string, a
text string, a `decimal.Decimal`, a `datetime`, or anything else.  The
`rep` payloads carry the value's `str()` form, which the string-length scan
applies to every value in its window. -/
inductive PyVal
  | pynone
  | bytes (rep : String)
  | str (s : String)
  | dec (d : Dec)
  | datetime (rep : String)
  | other (rep : String)
  deriving DecidableEq

/-- Python `str(value)` for a cell value. -/
def pyStr : PyVal → String
  | .pynone => "None"
  | .bytes rep => rep
  | .str s => s
  | .dec d => String.mk d.str
  | .datetime rep => rep
  | .other rep => rep

/-- `Series.dropna()`: the values with the nulls removed. -/
def dropnaPy (vs : List PyVal) : List PyVal := vs.filter (fun v => v != .pynone)

/-- Lines 131-139: the `type_mapping` dict, consulted with
`.get(str(dtype), 'TEXT')` on line 182. -/
def type_mapping (t : String) : String :=
  if t == "int64" then "BIGINT"
  else if t == "int32" then "INT"
  else if t == "int16" then "SMALLINT"
  else if t == "float64" then "FLOAT"
  else if t == "float32" then "REAL"
  else if t == "bool" then "BIT"
  else if t == "object" then "TEXT"
  else if t == "datetime64[ns]" then "TIMESTAMP"
  else "TEXT"

/-- Lines 146-180 of `generate_schema_from_df`: the object-dtype branch.
The representative sample is the first non-null value; bytes give
`VARBINARY(MAX)`, strings choose `VARCHAR(255)` versus `TEXT` by the
maximum `len(str(value))` over either the first `limit_string_search`
values (when positive) or the whole column, decimals go through
`decimalSqlType`, datetimes give `TIMESTAMP`, anything else `TEXT`; an
empty column (no non-null value) gives `TEXT`. -/
def inferObjectSqlType (values : List PyVal) (limit_string_search : Nat) :
    Except String String :=
  match dropnaPy values with
  | [] => Except.ok "TEXT"
  | data_sample :: _ =>
    match data_sample with
    | .bytes _ => Except.ok "VARBINARY(MAX)"
    | .str _ =>
      let data := if limit_string_search > 0 then values.take limit_string_search else values
      if (data.map (fun v => (pyStr v).length)).foldl max 0 < 255 then
        Except.ok "VARCHAR(255)"
      else Except.ok "TEXT"
    | .dec d => decimalSqlType d
    | .datetime _ => Except.ok "TIMESTAMP"
    | _ => Except.ok "TEXT"

/-- One column of the input DataFrame: its name, the string form of its
dtype, and its values (consulted only when the dtype is `object`). -/
structure Column where
  name : String
  dtype : String
  values : List PyVal
  deriving DecidableEq

/-- The per-column body of the loop on lines 142-182: object dtypes are
sampled, every other dtype goes through the `type_mapping` dict. -/
def inferColumnSqlType (col : Column) (limit_string_search : Nat) :
    Except String String :=
  if col.dtype == "object" then inferObjectSqlType col.values limit_string_search
  else Except.ok (type_mapping col.dtype)

/-- Lines 116-188, `generate_schema_from_df`: one `" name TYPE"` fragment per
column, joined with `",\n"`.  An exception in any column's inference
propagates out of the whole call. -/
def generate_schema_from_df (cols : List Column) (limit_string_search : Nat) :
    Except String String :=
  (cols.mapM (fun col =>
      (inferColumnSqlType col limit_string_search).map
        (fun t => " " ++ col.name ++ " " ++ t))).map
    (fun defs => String.intercalate ",\n" defs)

/-- One row of `cursor.columns(table=...)` catalog output, as
`return_table_schema` reads it. -/
structure TableMetadataRow where
  column_name : String
  type_name : String
  column_size : Nat
  decimal_digits : Nat
  deriving DecidableEq

/-- Lines 260-277 of `return_table_schema`: render one catalog row by its
uppercased type name; `VARCHAR` and `VARBINARY` carry `column_size`,
`DECIMAL` carries `(column_size, decimal_digits)`, a `VARBINARY` of size 0
renders the literal token `MAX`, and every other type carries nothing. -/
def renderMetadataRow (col : TableMetadataRow) : String :=
  let tn := col.type_name.toUpper
  if tn == "VARCHAR" then
    " " ++ col.column_name ++ " " ++ tn ++ "(" ++ toString col.column_size ++ ")"
  else if tn == "DECIMAL" then
    " " ++ col.column_name ++ " " ++ tn ++ "(" ++ toString col.column_size ++ ","
      ++ toString col.decimal_digits ++ ")"
  else if tn == "VARBINARY" then
    if col.column_size == 0 then
      " " ++ col.column_name ++ " " ++ tn ++ "(MAX)"
    else
      " " ++ col.column_name ++ " " ++ tn ++ "(" ++ toString col.column_size ++ ")"
  else
    " " ++ col.column_name ++ " " ++ tn

/-- One call the code makes against the gateway (cursor/connection pair). -/
inductive GatewayEvent
  | executeCheck (tableName : String)
  | executeCreate (tableName schemaText : String)
  | commitTxn
  | getinfoServer
  | closeCursor
  | closeConnection
  | queryColumns (tableName : String)
  deriving DecidableEq

/-- The gateway's behaviour for one provisioner invocation: what the
existence check reports, and which calls raise (carrying the exception's
message). -/
structure GatewayOracle where
  tableExists : Bool
  checkError : Option String
  createError : Option String
  commitError : Option String
  getinfoError : Option String
  serverName : String
  deriving DecidableEq

/-- Which code path `create_table_from_schema` returned on: `created`
models returning `None` after a successful `CREATE TABLE`; `alreadyExists`
models returning the already-a-table message; `error` models returning the
formatted string built in the `except` handler. -/
inductive ProvisionOutcome
  | created
  | alreadyExists (msg : String)
  | error (msg : String)
  deriving DecidableEq

/-- The value Python actually returns for each outcome (`None` or a string). -/
def ProvisionOutcome.toReturnValue : ProvisionOutcome → Option String
  | .created => none
  | .alreadyExists msg => some msg
  | .error msg => some msg

/-- Lines 192-234, `create_table_from_schema`: check for the table; when
absent, `CREATE TABLE`, commit, close cursor and connection, return `None`;
when present, build the already-a-table message (which calls `getinfo`),
close cursor and connection, return the message; any exception is caught
and `'There was an error: ' + e` is returned, with no close performed in
the handler.  The second component is the trace of gateway calls made. -/
def create_table_from_schema (schemaText tableName : String) (g : GatewayOracle) :
    ProvisionOutcome × List GatewayEvent :=
  match g.checkError with
  | some e => (.error ("There was an error: " ++ e), [.executeCheck tableName])
  | none =>
    if !g.tableExists then
      match g.createError with
      | some e =>
          (.error ("There was an error: " ++ e),
            [.executeCheck tableName, .executeCreate tableName schemaText])
      | none =>
        match g.commitError with
        | some e =>
            (.error ("There was an error: " ++ e),
              [.executeCheck tableName, .executeCreate tableName schemaText, .commitTxn])
        | none =>
            (.created,
              [.executeCheck tableName, .executeCreate tableName schemaText, .commitTxn,
                .closeCursor, .closeConnection])
    else
      match g.getinfoError with
      | some e => (.error ("There was an error: " ++ e), [.executeCheck tableName])
      | none =>
          (.alreadyExists ("There is already a table with the name: " ++ tableName
              ++ " in " ++ g.serverName),
            [.executeCheck tableName, .getinfoServer, .closeCursor, .closeConnection])

/-- The gateway's behaviour for one extractor invocation: the catalog
query either yields the metadata rows or raises with a message. -/
structure ExtractOracle where
  columnsResult : Except String (List TableMetadataRow)

/-- Lines 238-285, `return_table_schema`: render every catalog row, join
with `",\n"`, close cursor and connection, and return the schema text; a
raising catalog query is caught and `'There was an error: ' + e` is
returned, with no close performed in the handler. -/
def return_table_schema (tableName : String) (g : ExtractOracle) :
    Except String String × List GatewayEvent :=
  match g.columnsResult with
  | .error e => (.error ("There was an error: " ++ e), [.queryColumns tableName])
  | .ok rows =>
      (.ok (String.intercalate ",\n" (rows.map renderMetadataRow)),
        [.queryColumns tableName, .closeCursor, .closeConnection])

/-- Recognizes a `CREATE TABLE` statement in the gateway trace. -/
def isCreateEv : GatewayEvent → Bool
  | .executeCreate _ _ => true
  | _ => false

/-- Recognizes an existence-check statement in the gateway trace. -/
def isCheckEv : GatewayEvent → Bool
  | .executeCheck _ => true
  | _ => false

/-- Recognizes a catalog-columns query in the gateway trace. -/
def isQueryColumnsEv : GatewayEvent → Bool
  | .queryColumns _ => true
  | _ => false

/-- From the spec's words (§4.2): the scan window for the string-length
measurement is the first `scanLimit` values when `scanLimit > 0`, else the
whole column. -/
def scanWindow (values : List PyVal) (limit : Nat) : List PyVal :=
  if limit > 0 then values.take limit else values

/-- From the spec's words (§4.2): the maximum measured character length of
the values in a window. -/
def maxMeasuredLen (values : List PyVal) : Nat :=
  (values.map (fun v => (pyStr v).length)).foldl max 0

/-- From the spec's words (claim C1): the scale is the magnitude of the
exponent when negative, else 0. -/
def specScale (d : Dec) : Nat := if d.exponent < 0 then (-d.exponent).toNat else 0

/-- From the spec's words (claim C1): whether the integer part of the
printed decimal consists only of zeros — the value has no coefficient
digit left of the decimal point, or those digits are all zero. -/
def intPartIsZero (d : Dec) : Bool :=
  decide (d.exponent + (d.digits.length : Int) ≤ 0) ||
    (d.digits.take (d.exponent + (d.digits.length : Int)).toNat).all (fun x => x == 0)

/-- From the spec's words (claim C1): the precision is the count of digits
after the decimal point when the integer part is only zeros (that count is
the scale), else the count of all coefficient digits. -/
def specPrecision (d : Dec) : Nat :=
  if intPartIsZero d then specScale d else d.digits.length

/-- The spec's `ColumnDefinition` record (§3): name, SQL type, and optional
size metadata, where an unbounded `VARBINARY` renders the token `MAX`. -/
structure ColumnDefinition where
  name : String
  sqlType : String
  size : Option Nat := none
  sizeIsMax : Bool := false
  precision : Option Nat := none
  scale : Option Nat := none
  deriving DecidableEq

/-- From the spec's words (§4.5): render one `ColumnDefinition` as
`" <name> <sqlType>[(<size>|<precision>,<scale>)]"`. -/
def renderColumnDef (c : ColumnDefinition) : String :=
  if c.sizeIsMax then " " ++ c.name ++ " " ++ c.sqlType ++ "(MAX)"
  else match c.size, c.precision, c.scale with
  | some n, _, _ => " " ++ c.name ++ " " ++ c.sqlType ++ "(" ++ toString n ++ ")"
  | none, some p, some s =>
      " " ++ c.name ++ " " ++ c.sqlType ++ "(" ++ toString p ++ "," ++ toString s ++ ")"
  | _, _, _ => " " ++ c.name ++ " " ++ c.sqlType

/-- From the spec's words (§4.4): build the `ColumnDefinition` for one
catalog row, by uppercased reported type name. -/
def extractRowSpec (r : TableMetadataRow) : ColumnDefinition :=
  let tn := r.type_name.toUpper
  if tn == "VARCHAR" then
    { name := r.column_name, sqlType := tn, size := some r.column_size }
  else if tn == "DECIMAL" then
    { name := r.column_name, sqlType := tn,
      precision := some r.column_size, scale := some r.decimal_digits }
  else if tn == "VARBINARY" then
    if r.column_size == 0 then
      { name := r.column_name, sqlType := tn, sizeIsMax := true }
    else
      { name := r.column_name, sqlType := tn, size := some r.column_size }
  else
    { name := r.column_name, sqlType := tn }

theorem digitChar_ne_dot : ∀ x : Fin 10, digitChar x ≠ '.' := by decide

theorem digitChar_ne_minus : ∀ x : Fin 10, digitChar x ≠ '-' := by decide

theorem digitChar_eq_zero_iff : ∀ x : Fin 10, (digitChar x == '0') = (x == 0) := by decide

theorem noDot_map_digitChar (ds : List (Fin 10)) : ∀ c ∈ ds.map digitChar, c ≠ '.' := by
  intro c hc
  rcases List.mem_map.mp hc with ⟨x, _, rfl⟩
  exact digitChar_ne_dot x

theorem noMinus_map_digitChar (ds : List (Fin 10)) : ∀ c ∈ ds.map digitChar, c ≠ '-' := by
  intro c hc
  rcases List.mem_map.mp hc with ⟨x, _, rfl⟩
  exact digitChar_ne_minus x

theorem noDot_replicate (k : Nat) : ∀ c ∈ List.replicate k '0', c ≠ '.' := by
  intro c hc
  rw [List.eq_of_mem_replicate hc]
  decide

theorem noDot_append {l1 l2 : List Char} (h1 : ∀ c ∈ l1, c ≠ '.')
    (h2 : ∀ c ∈ l2, c ≠ '.') : ∀ c ∈ l1 ++ l2, c ≠ '.' := by
  intro c hc
  rcases List.mem_append.mp hc with h | h
  exacts [h1 c h, h2 c h]

theorem noMinus_append {l1 l2 : List Char} (h1 : ∀ c ∈ l1, c ≠ '-')
    (h2 : ∀ c ∈ l2, c ≠ '-') : ∀ c ∈ l1 ++ l2, c ≠ '-' := by
  intro c hc
  rcases List.mem_append.mp hc with h | h
  exacts [h1 c h, h2 c h]

theorem noDot_sgn (b : Bool) (l : List Char) (hl : ∀ c ∈ l, c ≠ '.') :
    ∀ c ∈ (if b then ['-'] else []) ++ l, c ≠ '.' := by
  intro c hc
  rcases List.mem_append.mp hc with h | h
  · cases b with
    | true => simp at h; subst h; decide
    | false => simp at h
  · exact hl c h

theorem pySplitDot_noDot (l : List Char) (h : ∀ c ∈ l, c ≠ '.') : pySplitDot l = [l] := by
  induction l with
  | nil => rfl
  | cons c cs ih =>
    have hc : c ≠ '.' := h c (List.mem_cons_self _ _)
    have ih' := ih (fun x hx => h x (List.mem_cons_of_mem _ hx))
    simp [pySplitDot, hc, ih']

theorem pySplitDot_append (a b : List Char) (h : ∀ c ∈ a, c ≠ '.') :
    pySplitDot (a ++ '.' :: b) = a :: pySplitDot b := by
  induction a with
  | nil => simp [pySplitDot]
  | cons c cs ih =>
    have hc : c ≠ '.' := h c (List.mem_cons_self _ _)
    have ih' := ih (fun x hx => h x (List.mem_cons_of_mem _ hx))
    simp [pySplitDot, hc, ih']

theorem lstripMinus_noMinus (l : List Char) (h : ∀ c ∈ l, c ≠ '-') :
    lstripMinus l = l := by
  cases l with
  | nil => rfl
  | cons c cs => simp [lstripMinus, h c (List.mem_cons_self _ _)]

theorem lstripMinus_sgn (b : Bool) (l : List Char) (h : ∀ c ∈ l, c ≠ '-') :
    lstripMinus ((if b then ['-'] else []) ++ l) = l := by
  cases b <;> simp [lstripMinus, lstripMinus_noMinus l h]

theorem all_zero_map (ds : List (Fin 10)) :
    (ds.map digitChar).all (fun c => c == '0') = ds.all (fun x => x == 0) := by
  induction ds with
  | nil => rfl
  | cons d ds ih => simp only [List.map_cons, List.all_cons, ih, digitChar_eq_zero_iff d]

theorem charSetIsZero_map (ds : List (Fin 10)) :
    charSetIsZero (ds.map digitChar) = (!ds.isEmpty && ds.all (fun x => x == 0)) := by
  cases ds with
  | nil => rfl
  | cons d ds =>
    simp only [charSetIsZero, List.map_cons, List.isEmpty_cons, List.all_cons,
      all_zero_map, digitChar_eq_zero_iff d]

/-- In plain notation with the whole coefficient right of the point
(`exponent + #digits ≤ 0`), the printed decimal is the sign, `0.`, the
padding zeros, and the coefficient digits. -/
theorem Dec.str_low (d : Dec) (h2 : d.exponent ≤ 0)
    (h3 : -6 < d.exponent + (d.digits.length : Int))
    (hD : d.exponent + (d.digits.length : Int) ≤ 0) :
    d.str = (if d.sign then ['-'] else []) ++
      ('0' :: '.' :: (List.replicate (-(d.exponent + (d.digits.length : Int))).toNat '0'
        ++ d.digits.map digitChar)) := by
  simp only [Dec.str]
  rw [if_pos (show d.exponent ≤ 0 ∧ -6 < d.exponent + (d.digits.length : Int) from ⟨h2, h3⟩),
    if_pos hD, if_pos hD,
    if_pos (rfl : d.exponent + (d.digits.length : Int) = d.exponent + (d.digits.length : Int))]
  simp

/-- With exponent zero the printed decimal is the sign followed by the
coefficient digits, with no decimal point. -/
theorem Dec.str_int (d : Dec) (h1 : d.digits ≠ []) (he : d.exponent = 0) :
    d.str = (if d.sign then ['-'] else []) ++ d.digits.map digitChar := by
  have hn : 0 < d.digits.length := List.length_pos.mpr h1
  simp only [Dec.str]
  rw [if_pos (show d.exponent ≤ 0 ∧ -6 < d.exponent + (d.digits.length : Int) from
      ⟨le_of_eq he, by omega⟩),
    if_neg (by omega : ¬ d.exponent + (d.digits.length : Int) ≤ 0),
    if_pos (by omega : (d.digits.length : Int) ≤ d.exponent + (d.digits.length : Int)),
    if_neg (by omega : ¬ d.exponent + (d.digits.length : Int) ≤ 0),
    if_pos (by omega : (d.digits.length : Int) ≤ d.exponent + (d.digits.length : Int)),
    if_pos (rfl : d.exponent + (d.digits.length : Int) = d.exponent + (d.digits.length : Int))]
  have h0 : (d.exponent + (d.digits.length : Int) - (d.digits.length : Int)).toNat = 0 := by
    omega
  rw [h0]
  simp

/-- In plain notation with a nonempty integer part (`exponent < 0 <
exponent + #digits`), the printed decimal splits the coefficient around
the decimal point. -/
theorem Dec.str_mid (d : Dec) (he : d.exponent < 0)
    (hD : 0 < d.exponent + (d.digits.length : Int)) :
    d.str = (if d.sign then ['-'] else []) ++
      ((d.digits.map digitChar).take (d.exponent + (d.digits.length : Int)).toNat
        ++ '.' :: (d.digits.map digitChar).drop
            (d.exponent + (d.digits.length : Int)).toNat) := by
  have hn : (0 : Int) < d.digits.length := by omega
  simp only [Dec.str]
  rw [if_pos (show d.exponent ≤ 0 ∧ -6 < d.exponent + (d.digits.length : Int) from
      ⟨le_of_lt he, by omega⟩),
    if_neg (by omega : ¬ d.exponent + (d.digits.length : Int) ≤ 0),
    if_neg (by omega : ¬ (d.digits.length : Int) ≤ d.exponent + (d.digits.length : Int)),
    if_neg (by omega : ¬ d.exponent + (d.digits.length : Int) ≤ 0),
    if_neg (by omega : ¬ (d.digits.length : Int) ≤ d.exponent + (d.digits.length : Int)),
    if_pos (rfl : d.exponent + (d.digits.length : Int) = d.exponent + (d.digits.length : Int))]
  simp [List.append_assoc]

/-- The decimal branch on every plain-notation sample that prints with a
decimal point or a nonzero coefficient: the emitted declaration is
`DECIMAL(specPrecision, specScale)`. -/
theorem decimalSqlType_plain (d : Dec) (h1 : d.digits ≠ [])
    (h2 : d.exponent ≤ 0) (h3 : -6 < d.exponent + (d.digits.length : Int))
    (h4 : ¬ (d.exponent = 0 ∧ ∀ x ∈ d.digits, x = 0)) :
    decimalSqlType d =
      Except.ok ("DECIMAL(" ++ toString (specPrecision d) ++ ","
        ++ toString (specScale d) ++ ")") := by
  have hn : 0 < d.digits.length := List.length_pos.mpr h1
  rcases lt_or_eq_of_le h2 with he | he
  · -- exponent < 0
    by_cases hD : d.exponent + (d.digits.length : Int) ≤ 0
    · -- no digits left of the point: integer part is the literal 0
      have hstr := Dec.str_low d h2 h3 hD
      have hshape : d.str = ((if d.sign then ['-'] else []) ++ ['0']) ++
          '.' :: (List.replicate (-(d.exponent + (d.digits.length : Int))).toNat '0'
            ++ d.digits.map digitChar) := by
        rw [hstr]; simp
      have hsplit : pySplitDot d.str = [(if d.sign then ['-'] else []) ++ ['0'],
          List.replicate (-(d.exponent + (d.digits.length : Int))).toNat '0'
            ++ d.digits.map digitChar] := by
        rw [hshape, pySplitDot_append _ _ (noDot_sgn d.sign ['0'] (by decide)),
          pySplitDot_noDot _ (noDot_append (noDot_replicate _) (noDot_map_digitChar _))]
      have hstrip : lstripMinus ((if d.sign then ['-'] else []) ++ ['0']) = ['0'] :=
        lstripMinus_sgn d.sign ['0'] (by decide)
      simp only [decimalSqlType, hsplit, List.headD_cons, hstrip]
      have hzero : charSetIsZero ['0'] = true := by decide
      rw [if_pos hzero]
      simp only [List.getElem?_cons_succ, List.getElem?_cons_zero]
      have hlen : (List.replicate (-(d.exponent + (d.digits.length : Int))).toNat '0'
          ++ d.digits.map digitChar).length = (-d.exponent).toNat := by
        simp [List.length_append, List.length_replicate, List.length_map]
        omega
      have hspec : specPrecision d = (-d.exponent).toNat := by
        unfold specPrecision intPartIsZero
        rw [decide_eq_true hD]
        simp [specScale, he]
      have hscale : specScale d = (-d.exponent).toNat := by simp [specScale, he]
      rw [hlen, hspec, hscale, if_pos he]
    · -- digits on both sides of the point
      push_neg at hD
      have hstr := Dec.str_mid d he hD
      set k : Nat := (d.exponent + (d.digits.length : Int)).toNat with hk
      have hkpos : 0 < k := by omega
      have hklt : k < d.digits.length := by omega
      have hshape : d.str = ((if d.sign then ['-'] else []) ++
          (d.digits.map digitChar).take k) ++
          '.' :: (d.digits.map digitChar).drop k := by
        rw [hstr]; simp [List.append_assoc]
      have htake : (d.digits.map digitChar).take k = (d.digits.take k).map digitChar :=
        (List.map_take _ _ _).symm
      have hnodot : ∀ c ∈ (if d.sign then ['-'] else []) ++ (d.digits.map digitChar).take k,
          c ≠ '.' := by
        rw [htake]
        exact noDot_sgn d.sign _ (noDot_map_digitChar _)
      have hsplit : pySplitDot d.str = [(if d.sign then ['-'] else []) ++
          (d.digits.map digitChar).take k, (d.digits.map digitChar).drop k] := by
        rw [hshape, pySplitDot_append _ _ hnodot,
          pySplitDot_noDot _ (fun c hc =>
            noDot_map_digitChar d.digits c (List.drop_subset _ _ hc))]
      have hstrip : lstripMinus ((if d.sign then ['-'] else []) ++
          (d.digits.map digitChar).take k) = (d.digits.map digitChar).take k := by
        rw [htake]
        exact lstripMinus_sgn d.sign _ (noMinus_map_digitChar _)
      simp only [decimalSqlType, hsplit, List.headD_cons, hstrip]
      have hcs : charSetIsZero ((d.digits.map digitChar).take k) =
          (d.digits.take k).all (fun x => x == 0) := by
        rw [htake, charSetIsZero_map]
        have hne : d.digits.take k ≠ [] := by
          intro hemp
          have hlen0 := congrArg List.length hemp
          rw [List.length_take] at hlen0
          simp only [List.length_nil] at hlen0
          omega
        have : (d.digits.take k).isEmpty = false := by
          cases htk : d.digits.take k with
          | nil => exact absurd htk hne
          | cons a as => rfl
        rw [this]
        simp
      by_cases hz : (d.digits.take k).all (fun x => x == 0) = true
      · -- all-zero integer part: precision is the fractional digit count
        rw [if_pos (by rw [hcs]; exact hz)]
        simp only [List.getElem?_cons_succ, List.getElem?_cons_zero]
        have hlen : ((d.digits.map digitChar).drop k).length = (-d.exponent).toNat := by
          rw [List.length_drop, List.length_map]
          omega
        have hspec : specPrecision d = (-d.exponent).toNat := by
          unfold specPrecision intPartIsZero
          rw [← hk, hz]
          simp [specScale, he]
        have hscale : specScale d = (-d.exponent).toNat := by simp [specScale, he]
        rw [hlen, hspec, hscale, if_pos he]
      · -- nonzero integer part: precision is the total digit count
        rw [if_neg (by rw [hcs]; exact hz)]
        have hstripfull : lstripMinus d.str = (d.digits.map digitChar).take k ++
            '.' :: (d.digits.map digitChar).drop k := by
          rw [hshape, List.append_assoc]
          refine lstripMinus_sgn d.sign _ ?_
          refine noMinus_append (fun c hc =>
            noMinus_map_digitChar d.digits c (List.take_subset _ _ hc)) ?_
          intro c hc
          rcases List.mem_cons.mp hc with h | h
          · rw [h]; decide
          · exact noMinus_map_digitChar d.digits c (List.drop_subset _ _ h)
        rw [hstripfull]
        have hfilter : ((d.digits.map digitChar).take k ++
            '.' :: (d.digits.map digitChar).drop k).filter (fun c => c != '.') =
            (d.digits.map digitChar).take k ++ (d.digits.map digitChar).drop k := by
          rw [List.filter_append, List.filter_cons]
          have hdot : (('.' : Char) != '.') = false := by decide
          rw [hdot]
          simp only [Bool.false_eq_true, if_false]
          rw [List.filter_eq_self.mpr, List.filter_eq_self.mpr]
          · intro a ha
            exact bne_iff_ne.mpr (noDot_map_digitChar d.digits a (List.drop_subset _ _ ha))
          · intro a ha
            exact bne_iff_ne.mpr (noDot_map_digitChar d.digits a (List.take_subset _ _ ha))
        rw [hfilter]
        have hlen : ((d.digits.map digitChar).take k ++
            (d.digits.map digitChar).drop k).length = d.digits.length := by
          rw [List.length_append, List.length_take, List.length_drop, List.length_map]
          omega
        have hzf : (d.digits.take k).all (fun x => x == 0) = false :=
          Bool.eq_false_iff.mpr hz
        have hspec : specPrecision d = d.digits.length := by
          unfold specPrecision intPartIsZero
          rw [← hk, hzf]
          rw [decide_eq_false (by omega : ¬ d.exponent + (d.digits.length : Int) ≤ 0)]
          simp
        have hscale : specScale d = (-d.exponent).toNat := by simp [specScale, he]
        rw [hlen, hspec, hscale, if_pos he]
  · -- exponent = 0, digits not all zero
    have he' : d.exponent = 0 := he
    have hnz : ¬ ∀ x ∈ d.digits, x = 0 := fun hall => h4 ⟨he', hall⟩
    have hstr := Dec.str_int d h1 he'
    have hsplit : pySplitDot d.str =
        [(if d.sign then ['-'] else []) ++ d.digits.map digitChar] := by
      rw [hstr]
      exact pySplitDot_noDot _ (noDot_sgn d.sign _ (noDot_map_digitChar _))
    have hstrip : lstripMinus ((if d.sign then ['-'] else []) ++ d.digits.map digitChar) =
        d.digits.map digitChar :=
      lstripMinus_sgn d.sign _ (noMinus_map_digitChar _)
    have hallF : d.digits.all (fun x => x == 0) = false := by
      rcases Bool.eq_false_or_eq_true (d.digits.all (fun x => x == 0)) with h | h
      · exact absurd (fun x hx => by simpa using List.all_eq_true.mp h x hx) hnz
      · exact h
    simp only [decimalSqlType, hsplit, List.headD_cons, hstrip]
    have hcs : charSetIsZero (d.digits.map digitChar) = false := by
      rw [charSetIsZero_map, hallF]
      simp
    rw [if_neg (by rw [hcs]; exact Bool.false_ne_true)]
    rw [hstr, hstrip]
    have hfilter : (d.digits.map digitChar).filter (fun c => c != '.') =
        d.digits.map digitChar :=
      List.filter_eq_self.mpr (fun a ha => bne_iff_ne.mpr (noDot_map_digitChar _ a ha))
    rw [hfilter, List.length_map]
    have hspec : specPrecision d = d.digits.length := by
      unfold specPrecision intPartIsZero
      rw [decide_eq_false (by omega : ¬ d.exponent + (d.digits.length : Int) ≤ 0)]
      have : (d.exponent + (d.digits.length : Int)).toNat = d.digits.length := by omega
      rw [this, List.take_length, hallF]
      simp
    have hscale : specScale d = 0 := by simp [specScale, he']
    rw [hspec, hscale, if_neg (by omega : ¬ d.exponent < 0)]

/-- Claim C1 (amended): for every object-dtype column whose first non-null
value is an arbitrary-precision decimal that prints in plain notation
(exponent at most 0 and exponent plus digit count above -6) and is not the
all-zero-coefficient, zero-exponent case (where the inferrer instead
raises), the inferrer emits `DECIMAL(precision,scale)` with scale the
magnitude of the exponent when negative and 0 otherwise, and precision the
count of digits after the decimal point when the integer part is only
zeros, else the count of all digits excluding sign and decimal point; in
particular 0.25 yields `DECIMAL(2,2)`, 123.45 yields `DECIMAL(5,2)`, and
100 yields `DECIMAL(3,0)`. -/
theorem claim_C1 :
    (∀ name values limit d rest, dropnaPy values = PyVal.dec d :: rest →
      d.digits ≠ [] → d.exponent ≤ 0 → -6 < d.exponent + (d.digits.length : Int) →
      ¬ (d.exponent = 0 ∧ ∀ x ∈ d.digits, x = 0) →
      inferColumnSqlType ⟨name, "object", values⟩ limit =
        Except.ok ("DECIMAL(" ++ toString (specPrecision d) ++ ","
          ++ toString (specScale d) ++ ")"))
  ∧ inferColumnSqlType ⟨"c", "object", [PyVal.dec ⟨false, [2, 5], -2⟩]⟩ 0 =
      Except.ok "DECIMAL(2,2)"
  ∧ inferColumnSqlType ⟨"c", "object", [PyVal.dec ⟨false, [1, 2, 3, 4, 5], -2⟩]⟩ 0 =
      Except.ok "DECIMAL(5,2)"
  ∧ inferColumnSqlType ⟨"c", "object", [PyVal.dec ⟨false, [1, 0, 0], 0⟩]⟩ 0 =
      Except.ok "DECIMAL(3,0)" := by
  refine ⟨?_, by decide, by decide, by decide⟩
  intro name values limit d rest h hd1 hd2 hd3 hd4
  have hred : inferColumnSqlType ⟨name, "object", values⟩ limit = decimalSqlType d := by
    simp [inferColumnSqlType, inferObjectSqlType, h]
  rw [hred]
  exact decimalSqlType_plain d hd1 hd2 hd3 hd4

/-- Witness for claim C1 at the 0.25 column. -/
theorem claim_C1_witness :
    dropnaPy [PyVal.dec ⟨false, [2, 5], -2⟩] = PyVal.dec ⟨false, [2, 5], -2⟩ :: [] ∧
    inferColumnSqlType ⟨"w", "object", [PyVal.dec ⟨false, [2, 5], -2⟩]⟩ 0 =
      Except.ok ("DECIMAL(" ++ toString (specPrecision ⟨false, [2, 5], -2⟩) ++ ","
        ++ toString (specScale ⟨false, [2, 5], -2⟩) ++ ")") :=
  ⟨by decide, claim_C1.1 "w" [PyVal.dec ⟨false, [2, 5], -2⟩] 0 ⟨false, [2, 5], -2⟩ []
    (by decide) (by decide) (by decide) (by decide) (by decide)⟩

/-- Counterexample to claim C1 as stated: for the decimal value 0 (an
arbitrary-precision decimal first non-null sample) the inferrer raises an
`IndexError` instead of emitting any `DECIMAL(precision,scale)`. -/
theorem claim_C1_counterexample :
    inferColumnSqlType ⟨"c", "object", [PyVal.dec ⟨false, [0], 0⟩]⟩ 0 =
      Except.error "IndexError: list index out of range" := by decide

/-- Claim C2: for every object-dtype column whose first non-null value is a
string, the inferrer emits `VARCHAR(255)` when the maximum measured
character length over the scan window (the first `scanLimit` values when
`scanLimit > 0`, otherwise the whole column) is strictly below 255, and
`TEXT` otherwise; a longest value of exactly 254 characters yields
`VARCHAR(255)` and exactly 255 characters yields `TEXT`. -/
theorem claim_C2 :
    (∀ name values limit s rest, dropnaPy values = PyVal.str s :: rest →
      inferColumnSqlType ⟨name, "object", values⟩ limit =
        Except.ok (if maxMeasuredLen (scanWindow values limit) < 255 then "VARCHAR(255)"
          else "TEXT"))
  ∧ inferColumnSqlType ⟨"c", "object", [PyVal.str (String.mk (List.replicate 254 'a'))]⟩ 0 =
      Except.ok "VARCHAR(255)"
  ∧ inferColumnSqlType ⟨"c", "object", [PyVal.str (String.mk (List.replicate 255 'a'))]⟩ 0 =
      Except.ok "TEXT" := by
  refine ⟨?_, by decide, by decide⟩
  intro name values limit s rest h
  have hstep : inferColumnSqlType ⟨name, "object", values⟩ limit =
      (if maxMeasuredLen (scanWindow values limit) < 255 then Except.ok "VARCHAR(255)"
        else Except.ok "TEXT") := by
    simp [inferColumnSqlType, inferObjectSqlType, h, scanWindow, maxMeasuredLen]
  rw [hstep]
  split_ifs <;> rfl

/-- Witness for claim C2 at a one-string column scanned with limit 3. -/
theorem claim_C2_witness :
    dropnaPy [PyVal.str "ab"] = PyVal.str "ab" :: [] ∧
    inferColumnSqlType ⟨"c", "object", [PyVal.str "ab"]⟩ 3 =
      Except.ok (if maxMeasuredLen (scanWindow [PyVal.str "ab"] 3) < 255 then "VARCHAR(255)"
        else "TEXT") :=
  ⟨by decide, claim_C2.1 "c" [PyVal.str "ab"] 3 "ab" [] (by decide)⟩

/-- Claim C3: the reverse extractor renders each metadata row by uppercased
type name exactly as the spec's `ColumnDefinition` construction plus DDL
rendering describes: `VARCHAR` with `columnSize`, `DECIMAL` with
`(columnSize, decimalDigits)`, `VARBINARY` with `columnSize` except that
size 0 renders the literal token `MAX`, and any other type name uppercased
with no size metadata. -/
theorem claim_C3 : ∀ r : TableMetadataRow,
    renderMetadataRow r = renderColumnDef (extractRowSpec r) := by
  intro r
  simp only [renderMetadataRow, extractRowSpec, renderColumnDef]
  split_ifs <;> simp_all [String.append_assoc]

/-- Claim C4 (amended): for every object-dtype column with zero non-null
values the inferrer assigns `TEXT`. -/
theorem claim_C4 : ∀ name values limit, dropnaPy values = [] →
    inferColumnSqlType ⟨name, "object", values⟩ limit = Except.ok "TEXT" := by
  intro name values limit h
  simp [inferColumnSqlType, inferObjectSqlType, h]

/-- Witness for claim C4 at a column holding a single null. -/
theorem claim_C4_witness :
    dropnaPy [PyVal.pynone] = [] ∧
    inferColumnSqlType ⟨"e", "object", [PyVal.pynone]⟩ 0 = Except.ok "TEXT" :=
  ⟨by decide, claim_C4 "e" [PyVal.pynone] 0 (by decide)⟩

/-- Counterexample to claim C4 as stated: a `float64` column with zero
non-null values infers `FLOAT`, not `TEXT`, because the empty-column
fallback only exists inside the object-dtype branch. -/
theorem claim_C4_counterexample :
    dropnaPy [PyVal.pynone] = [] ∧
    inferColumnSqlType ⟨"c", "float64", [PyVal.pynone]⟩ 0 = Except.ok "FLOAT" ∧
    (Except.ok "FLOAT" : Except String String) ≠ Except.ok "TEXT" := by
  refine ⟨by decide, by decide, by decide⟩

/-- Claim C5 (amended): the provisioner closes the cursor and the
connection on the table-created and already-present exit paths, and the
extractor closes them on its success path, but on the failing paths of
both the `except` handler returns without closing either. -/
theorem claim_C5 :
    (∀ s t g, g.checkError = none → g.tableExists = false → g.createError = none →
      g.commitError = none →
      GatewayEvent.closeCursor ∈ (create_table_from_schema s t g).2 ∧
      GatewayEvent.closeConnection ∈ (create_table_from_schema s t g).2)
  ∧ (∀ s t g, g.checkError = none → g.tableExists = true → g.getinfoError = none →
      GatewayEvent.closeCursor ∈ (create_table_from_schema s t g).2 ∧
      GatewayEvent.closeConnection ∈ (create_table_from_schema s t g).2)
  ∧ (∀ s t g e, g.checkError = some e →
      GatewayEvent.closeCursor ∉ (create_table_from_schema s t g).2 ∧
      GatewayEvent.closeConnection ∉ (create_table_from_schema s t g).2)
  ∧ (∀ t g rows, g.columnsResult = Except.ok rows →
      GatewayEvent.closeCursor ∈ (return_table_schema t g).2 ∧
      GatewayEvent.closeConnection ∈ (return_table_schema t g).2)
  ∧ (∀ t g e, g.columnsResult = Except.error e →
      GatewayEvent.closeCursor ∉ (return_table_schema t g).2 ∧
      GatewayEvent.closeConnection ∉ (return_table_schema t g).2) := by
  refine ⟨?_, ?_, ?_, ?_, ?_⟩
  · intro s t g h1 h2 h3 h4
    simp [create_table_from_schema, h1, h2, h3, h4]
  · intro s t g h1 h2 h3
    simp [create_table_from_schema, h1, h2, h3]
  · intro s t g e h
    simp [create_table_from_schema, h]
  · intro t g rows h
    simp [return_table_schema, h]
  · intro t g e h
    simp [return_table_schema, h]

/-- Witness for claim C5 on the successful-creation path. -/
theorem claim_C5_witness :
    GatewayEvent.closeCursor ∈
      (create_table_from_schema "s" "t" ⟨false, none, none, none, none, "srv"⟩).2 ∧
    GatewayEvent.closeConnection ∈
      (create_table_from_schema "s" "t" ⟨false, none, none, none, none, "srv"⟩).2 :=
  claim_C5.1 "s" "t" ⟨false, none, none, none, none, "srv"⟩ rfl rfl rfl rfl

/-- Counterexample to claim C5 as stated: when the existence check raises,
the invocation returns from the handler with neither the cursor nor the
connection closed. -/
theorem claim_C5_counterexample :
    (create_table_from_schema "s" "t" ⟨true, some "boom", none, none, none, "srv"⟩).1 =
      ProvisionOutcome.error "There was an error: boom" ∧
    GatewayEvent.closeCursor ∉
      (create_table_from_schema "s" "t" ⟨true, some "boom", none, none, none, "srv"⟩).2 ∧
    GatewayEvent.closeConnection ∉
      (create_table_from_schema "s" "t" ⟨true, some "boom", none, none, none, "srv"⟩).2 := by
  refine ⟨by decide, by decide, by decide⟩

/-- Claim C6 (amended): every gateway failure during existence check,
creation, commit, the already-exists message build, or metadata extraction
becomes the invocation's result, wrapped in the fixed text
`There was an error: ` followed by the failure's message; nothing is
swallowed and no statement is retried (each invocation issues at most one
existence check, one `CREATE TABLE`, and one catalog-columns query). -/
theorem claim_C6 :
    (∀ s t g e, g.checkError = some e →
      (create_table_from_schema s t g).1 =
        ProvisionOutcome.error ("There was an error: " ++ e))
  ∧ (∀ s t g e, g.checkError = none → g.tableExists = false → g.createError = some e →
      (create_table_from_schema s t g).1 =
        ProvisionOutcome.error ("There was an error: " ++ e))
  ∧ (∀ s t g e, g.checkError = none → g.tableExists = false → g.createError = none →
      g.commitError = some e →
      (create_table_from_schema s t g).1 =
        ProvisionOutcome.error ("There was an error: " ++ e))
  ∧ (∀ s t g e, g.checkError = none → g.tableExists = true → g.getinfoError = some e →
      (create_table_from_schema s t g).1 =
        ProvisionOutcome.error ("There was an error: " ++ e))
  ∧ (∀ t g e, g.columnsResult = Except.error e →
      (return_table_schema t g).1 = Except.error ("There was an error: " ++ e))
  ∧ (∀ s t g, ((create_table_from_schema s t g).2.countP isCheckEv) ≤ 1 ∧
      ((create_table_from_schema s t g).2.countP isCreateEv) ≤ 1)
  ∧ (∀ t g, ((return_table_schema t g).2.countP isQueryColumnsEv) ≤ 1) := by
  refine ⟨?_, ?_, ?_, ?_, ?_, ?_, ?_⟩
  · intro s t g e h
    simp [create_table_from_schema, h]
  · intro s t g e h1 h2 h3
    simp [create_table_from_schema, h1, h2, h3]
  · intro s t g e h1 h2 h3 h4
    simp [create_table_from_schema, h1, h2, h3, h4]
  · intro s t g e h1 h2 h3
    simp [create_table_from_schema, h1, h2, h3]
  · intro t g e h
    simp [return_table_schema, h]
  · intro s t g
    rcases g with ⟨te, ce, cre, coe, ge, sn⟩
    cases te <;> cases ce <;> cases cre <;> cases coe <;> cases ge <;>
      simp [create_table_from_schema, List.countP_cons, List.countP_nil,
        isCheckEv, isCreateEv]
  · intro t g
    rcases g with ⟨cr⟩
    cases cr <;>
      simp [return_table_schema, List.countP_cons, List.countP_nil, isQueryColumnsEv]

/-- Witness for claim C6 at a failing existence check. -/
theorem claim_C6_witness :
    GatewayOracle.checkError ⟨false, some "boom", none, none, none, "srv"⟩ = some "boom" ∧
    (create_table_from_schema "s" "t" ⟨false, some "boom", none, none, none, "srv"⟩).1 =
      ProvisionOutcome.error ("There was an error: " ++ "boom") :=
  ⟨rfl, claim_C6.1 "s" "t" ⟨false, some "boom", none, none, none, "srv"⟩ "boom" rfl⟩

/-- Counterexample to claim C6 as stated: the failure is not propagated
unmodified — the invocation's result wraps the message `boom` in the text
`There was an error: `, which differs from `boom`. -/
theorem claim_C6_counterexample :
    (create_table_from_schema "s" "t" ⟨false, some "boom", none, none, none, "srv"⟩).1 =
      ProvisionOutcome.error ("There was an error: " ++ "boom") ∧
    ("There was an error: " ++ "boom" : String) ≠ "boom" := by
  refine ⟨by decide, by decide⟩

/-- Claim C7: the inferrer maps the primitive dtype tags int64, int32,
int16, float64, float32, bool and datetime64[ns] to BIGINT, INT, SMALLINT,
FLOAT, REAL, BIT and TIMESTAMP, and any non-object tag outside this table
to TEXT, without raising any error. -/
theorem claim_C7 :
    (∀ name values limit, inferColumnSqlType ⟨name, "int64", values⟩ limit =
      Except.ok "BIGINT")
  ∧ (∀ name values limit, inferColumnSqlType ⟨name, "int32", values⟩ limit =
      Except.ok "INT")
  ∧ (∀ name values limit, inferColumnSqlType ⟨name, "int16", values⟩ limit =
      Except.ok "SMALLINT")
  ∧ (∀ name values limit, inferColumnSqlType ⟨name, "float64", values⟩ limit =
      Except.ok "FLOAT")
  ∧ (∀ name values limit, inferColumnSqlType ⟨name, "float32", values⟩ limit =
      Except.ok "REAL")
  ∧ (∀ name values limit, inferColumnSqlType ⟨name, "bool", values⟩ limit =
      Except.ok "BIT")
  ∧ (∀ name values limit, inferColumnSqlType ⟨name, "datetime64[ns]", values⟩ limit =
      Except.ok "TIMESTAMP")
  ∧ (∀ tag, tag ≠ "int64" → tag ≠ "int32" → tag ≠ "int16" → tag ≠ "float64" →
      tag ≠ "float32" → tag ≠ "bool" → tag ≠ "object" → tag ≠ "datetime64[ns]" →
      ∀ name values limit, inferColumnSqlType ⟨name, tag, values⟩ limit =
        Except.ok "TEXT") := by
  have base : ∀ tag res, (tag == "object") = false → type_mapping tag = res →
      ∀ name values limit, inferColumnSqlType ⟨name, tag, values⟩ limit = Except.ok res := by
    intro tag res hne hmap name values limit
    simp [inferColumnSqlType, hne, hmap]
  refine ⟨base "int64" "BIGINT" rfl rfl, base "int32" "INT" rfl rfl,
    base "int16" "SMALLINT" rfl rfl, base "float64" "FLOAT" rfl rfl,
    base "float32" "REAL" rfl rfl, base "bool" "BIT" rfl rfl,
    base "datetime64[ns]" "TIMESTAMP" rfl rfl, ?_⟩
  intro tag h1 h2 h3 h4 h5 h6 h7 h8 name values limit
  simp [inferColumnSqlType, type_mapping, h1, h2, h3, h4, h5, h6, h7, h8]

/-- Witness for claim C7 at the unmapped dtype tag `category`. -/
theorem claim_C7_witness :
    ("category" : String) ≠ "int64" ∧
    inferColumnSqlType ⟨"c", "category", []⟩ 0 = Except.ok "TEXT" :=
  ⟨by decide, claim_C7.2.2.2.2.2.2.2 "category" (by decide) (by decide) (by decide)
    (by decide) (by decide) (by decide) (by decide) (by decide) "c" [] 0⟩

/-- Claim C8: for every object-dtype column whose first non-null value is a
byte sequence, the inferrer emits `VARBINARY(MAX)` unconditionally,
whatever the column's other values and the scan limit. -/
theorem claim_C8 : ∀ name values limit b rest,
    dropnaPy values = PyVal.bytes b :: rest →
    inferColumnSqlType ⟨name, "object", values⟩ limit = Except.ok "VARBINARY(MAX)" := by
  intro name values limit b rest h
  simp [inferColumnSqlType, inferObjectSqlType, h]

/-- Witness for claim C8 at a one-element bytes column. -/
theorem claim_C8_witness :
    dropnaPy [PyVal.bytes "abc"] = PyVal.bytes "abc" :: [] ∧
    inferColumnSqlType ⟨"c", "object", [PyVal.bytes "abc"]⟩ 0 =
      Except.ok "VARBINARY(MAX)" :=
  ⟨by decide, claim_C8 "c" [PyVal.bytes "abc"] 0 "abc" [] (by decide)⟩

/-- Claim C9: when the gateway reports the table as already present (the
existence check and the server-name call succeeding), the provisioner
returns the already-exists message as a normal result and its trace holds
zero `CREATE TABLE` statements; invocations are independent, so a second
call against the same still-existing table issues zero `CREATE TABLE`
statements as well. -/
theorem claim_C9 : ∀ schemaText tableName g,
    g.checkError = none → g.tableExists = true → g.getinfoError = none →
    (create_table_from_schema schemaText tableName g).1 =
      ProvisionOutcome.alreadyExists ("There is already a table with the name: "
        ++ tableName ++ " in " ++ g.serverName) ∧
    ((create_table_from_schema schemaText tableName g).2.countP isCreateEv) = 0 := by
  intro s t g h1 h2 h3
  simp [create_table_from_schema, h1, h2, h3, List.countP_cons, List.countP_nil, isCreateEv]

/-- Witness for claim C9 at a concrete oracle reporting the table present. -/
theorem claim_C9_witness :
    (create_table_from_schema "sch" "tbl" ⟨true, none, none, none, none, "srv"⟩).1 =
      ProvisionOutcome.alreadyExists ("There is already a table with the name: "
        ++ "tbl" ++ " in "
        ++ GatewayOracle.serverName ⟨true, none, none, none, none, "srv"⟩) ∧
    ((create_table_from_schema "sch" "tbl" ⟨true, none, none, none, none, "srv"⟩).2.countP
      isCreateEv) = 0 :=
  claim_C9 "sch" "tbl" ⟨true, none, none, none, none, "srv"⟩ rfl rfl rfl

/-- Claim C10: the inferrer is not total over decimal samples — for the
decimal value 0 the printed form is `0`, which contains no decimal point
while its integer part is all zeros, so the precision computation indexes
the missing fractional part and the whole schema generation fails with an
`IndexError` instead of returning a schema. -/
theorem claim_C10 :
    Dec.str ⟨false, [0], 0⟩ = ['0'] ∧
    generate_schema_from_df [⟨"c", "object", [PyVal.dec ⟨false, [0], 0⟩]⟩] 0 =
      Except.error "IndexError: list index out of range" := by
  refine ⟨by decide, by decide⟩
